import Mathlib

/-!
Shallow embedding of the `wincpp` wrapper library
(`src/include/Window/WindowClass.hpp`, `src/include/Window/Window.hpp`):
two thin C++ classes over the Win32 windowing API. Handles and pointers
are modelled as natural numbers (`0` = `NULL`/`nullptr`), wide strings as
lists of 16-bit code units, and each platform call either as an explicit
state transition on a small platform-state record or as an emitted trace
event. C++ member functions become Lean functions from the object value
and the platform state to the updated values.
-/

namespace WinCpp

/-- A UTF-16 code unit (`wchar_t` on Windows); `0` is the terminator. -/
abbrev WCHAR := Nat

/-- The contents of a `std::wstring`: code units, possibly containing `0`. -/
abbrev WStr := List WCHAR

/-- A native window handle (`HWND`); `0` models `NULL`. -/
abbrev HWND := Nat

/-- A 32-bit unsigned value (`DWORD`). -/
abbrev DWORD := Nat

/-- A generic pointer / opaque handle value; `0` models `nullptr`. -/
abbrev Ptr := Nat

/-! ## WindowClass (`src/include/Window/WindowClass.hpp`)

`WNDCLASS` is the registration record the class owns.  The class-name
field is an `Option Ptr`: `none` models a null `lpszClassName` pointer,
`some p` a (possibly owned) heap string at address `p`. -/

/-- The `WNDCLASS` descriptor as filled in by `WindowClass::Initialize`. -/
structure WNDCLASS where
  style : Nat
  lpfnWndProc : Ptr
  hInstance : Ptr
  hbrBackground : Ptr
  lpszClassName : Option Ptr
  hCursor : Ptr
  hIcon : Ptr
  deriving DecidableEq, Repr

/-- The `WindowClass` object: its only member is `m_NativeClass`. -/
structure WindowClass where
  m_NativeClass : WNDCLASS
  deriving DecidableEq, Repr

/-- A release action performed against the platform or the heap. -/
inductive ReleaseAction where
  /-- `UnregisterClass(name, hInstance)` issued with a live name pointer. -/
  | unregisterClass (name : Ptr) (hInstance : Ptr)
  /-- `free((void*)lpszClassName)` of the owned name string. -/
  | freeName (name : Ptr)
  deriving DecidableEq, Repr

/-- `WindowClass::Unregister`: calls `UnregisterClass` only when
`lpszClassName` is non-null; otherwise does nothing. -/
def WindowClass.unregisterActions (wc : WindowClass) : List ReleaseAction :=
  match wc.m_NativeClass.lpszClassName with
  | some n => [.unregisterClass n wc.m_NativeClass.hInstance]
  | none => []

/-- `WindowClass::~WindowClass`: `Unregister()` then `free` of the name
string when it is non-null.  Returned as the list of release actions the
destructor performs. -/
def WindowClass.destructorActions (wc : WindowClass) : List ReleaseAction :=
  wc.unregisterActions ++
    (match wc.m_NativeClass.lpszClassName with
     | some n => [.freeName n]
     | none => [])

/-- `WindowClass::WindowClass(WindowClass&&)` (move constructor): copies
`other.m_NativeClass` into the new object and nulls
`other.m_NativeClass.lpszClassName`.  Returns (constructed object,
moved-from object). -/
def WindowClass.moveCtor (other : WindowClass) : WindowClass × WindowClass :=
  (⟨other.m_NativeClass⟩,
   ⟨{ other.m_NativeClass with lpszClassName := none }⟩)

/-- `WindowClass::operator=(WindowClass&&)`: when `this != &other`
(modelled by `notSelf`), the target first runs `Unregister()` and frees
its own name if non-null, then copies `other.m_NativeClass` and nulls the
source's name.  Self-assignment is a no-op.  Returns (new target, new
source, release actions performed by the assignment itself). -/
def WindowClass.moveAssign (target other : WindowClass) (notSelf : Bool) :
    WindowClass × WindowClass × List ReleaseAction :=
  if notSelf then
    (⟨other.m_NativeClass⟩,
     ⟨{ other.m_NativeClass with lpszClassName := none }⟩,
     target.destructorActions)
  else
    (target, other, [])

/-! ## WindowClass constructor overloads (C8)

The overload set is modelled as the list of parameter-type signatures of
the constructors declared in the header, in declaration order. -/

/-- A C++ parameter type appearing in a `WindowClass` constructor. -/
inductive ParamTy where
  | wndproc
  | hinstance
  | hbrush
  | lpcwstr
  deriving DecidableEq, Repr

/-- The parameter-type signatures of the four `WindowClass` constructors
declared in `WindowClass.hpp` (default; all parameters; no background
brush; no class name), in declaration order. -/
def windowClassCtorSignatures : List (List ParamTy) :=
  [ [],
    [.wndproc, .hinstance, .hbrush, .lpcwstr],
    [.wndproc, .hinstance, .lpcwstr],
    [.wndproc, .hinstance, .hbrush] ]

/-! ## Window (`src/include/Window/Window.hpp`)

The `Window` object's only member is the native handle.  Platform-side
state that the thin forwarding methods read or mutate (style bits, title
text, the global clipboard, visibility, geometry, installed handles) is
modelled explicitly in `PlatformState`; platform calls whose ordering a
claim talks about are additionally emitted as trace events. -/

/-- The `Window` object: its only member is `m_NativeWindow`. -/
structure Window where
  m_NativeWindow : HWND
  deriving DecidableEq, Repr

/-- `Window::GetHandle`. -/
def Window.getHandle (w : Window) : HWND :=
  w.m_NativeWindow

/-- The platform's global clipboard: whether it is currently open, and
the stored `CF_UNICODETEXT` contents (the code units before the
terminator of the installed block); `none` models "no text data". -/
structure ClipState where
  isOpen : Bool
  content : Option WStr
  deriving DecidableEq, Repr

/-- Platform-side state of the window a `Window` object refers to,
plus the global clipboard.  This layer caches none of it. -/
structure PlatformState where
  style : DWORD
  exStyle : DWORD
  title : WStr
  visible : Bool
  zoomed : Bool
  iconic : Bool
  posX : Int
  posY : Int
  width : Int
  height : Int
  bigIcon : Ptr
  smallIcon : Ptr
  classCursor : Ptr
  classBgBrush : Ptr
  menu : Ptr
  parentWnd : Ptr
  ownerWnd : Ptr
  wndProc : Ptr
  alpha : Nat
  timers : List (Nat × Nat)
  foreground : HWND
  focusWnd : HWND
  dpiAwarePerMonitorV2 : Bool
  clip : ClipState
  deriving DecidableEq, Repr

/-! ### winuser.h constants used by the methods -/

def GWL_STYLE : Int := -16
def GWL_EXSTYLE : Int := -20
def SWP_NOSIZE : Nat := 1
def SWP_NOMOVE : Nat := 2
def SWP_NOZORDER : Nat := 4
def SWP_FRAMECHANGED : Nat := 32
def SW_HIDE : Int := 0
def SW_MAXIMIZE : Int := 3
def SW_SHOW : Int := 5
def SW_MINIMIZE : Int := 6
def SW_RESTORE : Int := 9
def WS_EX_LAYERED : Nat := 524288

/-- A traced platform call (only the calls whose ordering or count a
property mentions are traced). -/
inductive PlatCall where
  /-- `SetWindowLong(hwnd, index, value)`. -/
  | setWindowLong (hwnd : HWND) (index : Int) (value : Nat)
  /-- `SetWindowPos(hwnd, ..., flags)`; `flags` is the `SWP_*` bitmask. -/
  | setWindowPos (hwnd : HWND) (flags : Nat)
  /-- `OpenClipboard` succeeded. -/
  | openClipboard
  /-- `EmptyClipboard()`. -/
  | emptyClipboard
  /-- `SetClipboardData(CF_UNICODETEXT, hGlobal)`. -/
  | setClipboardData
  /-- `GetClipboardData(CF_UNICODETEXT)`. -/
  | getClipboardData
  /-- `CloseClipboard()`. -/
  | closeClipboard
  deriving DecidableEq, Repr

/-- Whether a traced `SetWindowPos` call carries `SWP_FRAMECHANGED`. -/
def PlatCall.isFrameChange : PlatCall → Bool
  | .setWindowPos _ flags => flags / SWP_FRAMECHANGED % 2 == 1
  | _ => false

/-- The code units a `const wchar_t*` read of `s.c_str()` yields: the
prefix of `s` before its first embedded `0`. -/
def cstrRead (s : WStr) : WStr :=
  s.takeWhile (fun c => c ≠ 0)

/-! ### Style methods -/

/-- `Window::GetStyle`: `GetWindowLong(m_NativeWindow, GWL_STYLE)`. -/
def Window.getStyle (_w : Window) (st : PlatformState) : DWORD :=
  st.style

/-- `Window::SetStyle`: `SetWindowLong(GWL_STYLE, style)` (the platform
stores the low 32 bits) then
`SetWindowPos(NULL, 0,0,0,0, SWP_NOMOVE|SWP_NOSIZE|SWP_NOZORDER|SWP_FRAMECHANGED)`. -/
def Window.setStyle (w : Window) (style : DWORD) (st : PlatformState) :
    PlatformState × List PlatCall :=
  ({ st with style := style % 2 ^ 32 },
   [.setWindowLong w.m_NativeWindow GWL_STYLE (style % 2 ^ 32),
    .setWindowPos w.m_NativeWindow
      (SWP_NOMOVE ||| SWP_NOSIZE ||| SWP_NOZORDER ||| SWP_FRAMECHANGED)])

/-- `Window::GetExStyle`. -/
def Window.getExStyle (_w : Window) (st : PlatformState) : DWORD :=
  st.exStyle

/-- `Window::SetExStyle`. -/
def Window.setExStyle (w : Window) (exStyle : DWORD) (st : PlatformState) :
    PlatformState × List PlatCall :=
  ({ st with exStyle := exStyle % 2 ^ 32 },
   [.setWindowLong w.m_NativeWindow GWL_EXSTYLE (exStyle % 2 ^ 32),
    .setWindowPos w.m_NativeWindow
      (SWP_NOMOVE ||| SWP_NOSIZE ||| SWP_NOZORDER ||| SWP_FRAMECHANGED)])

/-! ### Title methods -/

/-- `Window::SetTitle`: `SetWindowText(m_NativeWindow, title)`.  The
argument is an `LPCWSTR`, so the platform stores the pointed-to C string
(up to the first `0`). -/
def Window.setTitle (_w : Window) (title : WStr) (st : PlatformState) :
    PlatformState :=
  { st with title := cstrRead title }

/-- `Window::GetTitle`: `GetWindowText(m_NativeWindow, buffer, 256)`
copies at most 255 code units plus a terminator into the fixed buffer,
and `std::wstring(buffer)` reads the buffer up to that terminator. -/
def Window.getTitle (_w : Window) (st : PlatformState) : WStr :=
  cstrRead (st.title.take 255)

/-! ### Clipboard methods

`OpenClipboard`, `GlobalAlloc` and `GlobalLock` can each fail at the
platform's discretion; the flags `openOk`, `allocOk`, `lockOk` model the
platform's response to the corresponding call in this invocation. -/

/-- `Window::CopyToClipboard` (returns the updated platform state and
the trace of clipboard-related calls made).  Mirrors the source: open;
on success empty the clipboard, allocate, lock, `wcscpy_s` the text's
C-string and install it — skipping the inner steps whose precursor
failed — and close. -/
def Window.copyToClipboard (_w : Window) (text : WStr)
    (openOk allocOk lockOk : Bool) (st : PlatformState) :
    PlatformState × List PlatCall :=
  if openOk then
    -- EmptyClipboard() runs unconditionally once the clipboard is open
    let cleared : ClipState := { isOpen := true, content := none }
    if allocOk then
      if lockOk then
        ({ st with clip := { isOpen := false, content := some (cstrRead text) } },
         [.openClipboard, .emptyClipboard, .setClipboardData, .closeClipboard])
      else
        ({ st with clip := { cleared with isOpen := false } },
         [.openClipboard, .emptyClipboard, .closeClipboard])
    else
      ({ st with clip := { cleared with isOpen := false } },
       [.openClipboard, .emptyClipboard, .closeClipboard])
  else
    (st, [])

/-- `Window::PasteFromClipboard` (returns the pasted string, the updated
platform state and the call trace).  `result` starts empty; if the
clipboard opens and `GetClipboardData` yields a non-null handle whose
lock succeeds, `result` becomes the pointed-to C string. -/
def Window.pasteFromClipboard (_w : Window) (openOk lockOk : Bool)
    (st : PlatformState) : WStr × PlatformState × List PlatCall :=
  if openOk then
    match st.clip.content with
    | some s =>
        if lockOk then
          (s, { st with clip := { st.clip with isOpen := false } },
           [.openClipboard, .getClipboardData, .closeClipboard])
        else
          ([], { st with clip := { st.clip with isOpen := false } },
           [.openClipboard, .getClipboardData, .closeClipboard])
    | none =>
        ([], { st with clip := { st.clip with isOpen := false } },
         [.openClipboard, .getClipboardData, .closeClipboard])
  else
    ([], st, [])

/-! ### Constructors

`CreateWindowEx` is a platform call; `CreateAttempt` records the
platform's response to one invocation: the handle it returns (`none`
models a `NULL` return) and what `GetLastError()` would report. -/

/-- The platform's response to one `CreateWindowEx` invocation. -/
structure CreateAttempt where
  result : Option HWND
  lastError : DWORD
  deriving DecidableEq, Repr

/-- Outcome of running a C++ constructor: a constructed object, or a
thrown `std::runtime_error` carrying its message. -/
inductive CtorOutcome where
  | ok (w : Window)
  | thrown (msg : String)
  deriving DecidableEq, Repr

/-- `Window::Window(LPCWSTR, LPCWSTR, HINSTANCE)` (simple shape): stores
the handle `CreateWindowEx` returns, or throws
`"Failed to create window. Error code: " + std::to_string(GetLastError())`
when it returns `NULL`. -/
def Window.ctorSimple (_windowClassName _windowName : WStr)
    (_hInstance : Ptr) (plat : CreateAttempt) : CtorOutcome :=
  match plat.result with
  | some h => .ok ⟨h⟩
  | none => .thrown ("Failed to create window. Error code: " ++ toString plat.lastError)

/-- `Window::Window(LPCWSTR, LPCWSTR, HINSTANCE, int, int, int, int,
DWORD, DWORD)` (extended shape): stores the handle, or throws
`"Failed to create window."` — without querying `GetLastError`. -/
def Window.ctorExtended (_windowClassName _windowName : WStr)
    (_hInstance : Ptr) (_x _y _width _height : Int) (_style _exStyle : DWORD)
    (plat : CreateAttempt) : CtorOutcome :=
  match plat.result with
  | some h => .ok ⟨h⟩
  | none => .thrown "Failed to create window."

/-! ### The remaining forwarding methods, as an operation type

Each public `Window` method is one constructor; arguments that are
platform responses (allocation success, a freshly created brush handle)
appear as extra parameters.  `applyOp` is the faithful translation of
each method body: none of them assigns `m_NativeWindow`, so each case
returns the object unchanged together with the platform state the
forwarded call produces. -/

/-- `ShowWindow(hwnd, cmd)`: the platform's effect on the modelled
visibility/zoom/iconic flags. -/
def showWindowEffect (cmd : Int) (st : PlatformState) : PlatformState :=
  if cmd = SW_HIDE then { st with visible := false }
  else if cmd = SW_MAXIMIZE then
    { st with visible := true, zoomed := true, iconic := false }
  else if cmd = SW_MINIMIZE then
    { st with visible := true, iconic := true, zoomed := false }
  else if cmd = SW_RESTORE then
    { st with visible := true, zoomed := false, iconic := false }
  else { st with visible := true }

/-- One invocation of a public `Window` method (with the platform's
responses, where the call has any, as arguments). -/
inductive WinOp where
  | show (style : Int)
  | hide
  | setSize (width height : Int)
  | setStyle (style : DWORD)
  | setExStyle (exStyle : DWORD)
  | setIcon (icon : Ptr)
  | setCursor (cursor : Ptr)
  | setPosition (x y : Int)
  | maximize
  | minimize
  | restore
  | setWindowProcedure (windowProc : Ptr)
  | setTransparency (alpha : Nat)
  | setLayered (layered : Bool)
  | sendSystemCommand (command : Nat)
  | setFocus
  | setMenu (menu : Ptr)
  | setParent (parent : Ptr)
  | setOwner (owner : Ptr)
  | redraw
  | invalidate
  | copyToClipboard (text : WStr) (openOk allocOk lockOk : Bool)
  | pasteFromClipboard (openOk lockOk : Bool)
  | setTimer (id elapse : Nat)
  | killTimer (id : Nat)
  | showContextMenu (menu : Ptr) (x y : Int)
  | setDPIAwareness
  | setBackgroundColor (color : Nat) (freshBrush : Ptr)
  | bringToTop
  | sendToBottom
  | setTitle (title : WStr)
  deriving DecidableEq, Repr

/-- Run one `Window` method: the method body translated case by case.
Pure queries (`GetStyle`, `GetTitle`, `IsVisible`, `GetHandle`, …) have
no state effect and are omitted; every mutator is here. -/
def Window.applyOp (w : Window) (op : WinOp) (st : PlatformState) :
    Window × PlatformState :=
  match op with
  | .show style => (w, showWindowEffect style st)
  | .hide => (w, showWindowEffect SW_HIDE st)
  | .setSize width height => (w, { st with width := width, height := height })
  | .setStyle style => (w, (w.setStyle style st).1)
  | .setExStyle exStyle => (w, (w.setExStyle exStyle st).1)
  | .setIcon icon => (w, { st with bigIcon := icon, smallIcon := icon })
  | .setCursor cursor => (w, { st with classCursor := cursor })
  | .setPosition x y => (w, { st with posX := x, posY := y })
  | .maximize => (w, showWindowEffect SW_MAXIMIZE st)
  | .minimize => (w, showWindowEffect SW_MINIMIZE st)
  | .restore => (w, showWindowEffect SW_RESTORE st)
  | .setWindowProcedure windowProc => (w, { st with wndProc := windowProc })
  | .setTransparency alpha =>
      (w, { st with exStyle := st.exStyle ||| WS_EX_LAYERED, alpha := alpha })
  | .setLayered layered =>
      if layered then (w, { st with exStyle := st.exStyle ||| WS_EX_LAYERED })
      else (w, { st with exStyle := st.exStyle &&& (2 ^ 32 - 1 - WS_EX_LAYERED) })
  | .sendSystemCommand _command => (w, st)
  | .setFocus => (w, { st with focusWnd := w.m_NativeWindow })
  | .setMenu menu => (w, { st with menu := menu })
  | .setParent parent => (w, { st with parentWnd := parent })
  | .setOwner owner => (w, { st with ownerWnd := owner })
  | .redraw => (w, st)
  | .invalidate => (w, st)
  | .copyToClipboard text openOk allocOk lockOk =>
      (w, (w.copyToClipboard text openOk allocOk lockOk st).1)
  | .pasteFromClipboard openOk lockOk =>
      (w, (w.pasteFromClipboard openOk lockOk st).2.1)
  | .setTimer id elapse =>
      (w, { st with timers := (id, elapse) :: st.timers.filter (fun t => t.1 ≠ id) })
  | .killTimer id =>
      (w, { st with timers := st.timers.filter (fun t => t.1 ≠ id) })
  | .showContextMenu _menu _x _y => (w, st)
  | .setDPIAwareness => (w, { st with dpiAwarePerMonitorV2 := true })
  | .setBackgroundColor _color freshBrush =>
      (w, { st with classBgBrush := freshBrush })
  | .bringToTop => (w, st)
  | .sendToBottom => (w, st)
  | .setTitle title => (w, w.setTitle title st)

/-- Run a sequence of `Window` method invocations. -/
def Window.runOps (w : Window) (ops : List WinOp) (st : PlatformState) :
    Window × PlatformState :=
  match ops with
  | [] => (w, st)
  | op :: rest => (w.applyOp op st).1.runOps rest (w.applyOp op st).2

/-! ### Synthesized class names (C7)

`WindowClass::WindowClass(WNDPROC, HINSTANCE, HBRUSH)` builds the name
`L"Class" << hashValue` where
`hashValue = hash(procedure) ^ hash(hInstance) ^ hash(background)`,
each `hash` being `std::hash<void*>`. -/

/-- FNV-1a offset basis (64-bit). -/
def fnvBasis : Nat := 14695981039346656037

/-- FNV-1a prime (64-bit). -/
def fnvPrime : Nat := 1099511628211

/-- One FNV-1a step over a byte, in 64-bit arithmetic. -/
def fnvStep (h b : Nat) : Nat :=
  (h ^^^ b) * fnvPrime % 2 ^ 64

/-- The 8 little-endian bytes of a 64-bit pointer value. -/
def ptrBytes (p : Ptr) : List Nat :=
  (List.range 8).map (fun i => p / 2 ^ (8 * i) % 256)

/-- `std::hash<void*>` as implemented by the MSVC standard library on
this platform: FNV-1a over the pointer's bytes. -/
def stdHashPtr (p : Ptr) : Nat :=
  (ptrBytes p).foldl fnvStep fnvBasis

/-- The synthesized class name for a given per-component hash function
`h`: `"Class"` followed by the decimal rendering of
`h procedure ^^^ h hInstance ^^^ h background`. -/
def synthClassNameWith (h : Nat → Nat) (procedure hInstance background : Ptr) :
    String :=
  "Class" ++ toString (h procedure ^^^ h hInstance ^^^ h background)

/-- The synthesized class name with the platform's `std::hash<void*>`. -/
def synthClassName (procedure hInstance background : Ptr) : String :=
  synthClassNameWith stdHashPtr procedure hInstance background

/-! ## Concrete values used by witnesses -/

/-- An all-default platform state (closed clipboard, no text data). -/
def st0 : PlatformState :=
  { style := 0, exStyle := 0, title := [], visible := false, zoomed := false,
    iconic := false, posX := 0, posY := 0, width := 0, height := 0,
    bigIcon := 0, smallIcon := 0, classCursor := 0, classBgBrush := 0,
    menu := 0, parentWnd := 0, ownerWnd := 0, wndProc := 0, alpha := 0,
    timers := [], foreground := 0, focusWnd := 0,
    dpiAwarePerMonitorV2 := false, clip := { isOpen := false, content := none } }

/-! ## Theorems -/

/-- C1: move construction and move assignment of `WindowClass` transfer
the descriptor (and with it the owned class-name string) to the target
and null the source's `lpszClassName`, so the moved-from object's
destructor performs no release action (no `UnregisterClass`, no `free`);
consequently any given name pointer is freed at most once across the two
destructors. -/
theorem C1_move_no_release_on_moved_from (target other : WindowClass) :
    (WindowClass.moveCtor other).1.m_NativeClass = other.m_NativeClass
    ∧ (WindowClass.moveCtor other).2.m_NativeClass.lpszClassName = none
    ∧ (WindowClass.moveCtor other).2.destructorActions = []
    ∧ (target.moveAssign other true).1.m_NativeClass = other.m_NativeClass
    ∧ (target.moveAssign other true).2.1.m_NativeClass.lpszClassName = none
    ∧ (target.moveAssign other true).2.1.destructorActions = []
    ∧ ∀ p : Ptr,
        ((WindowClass.moveCtor other).1.destructorActions ++
          (WindowClass.moveCtor other).2.destructorActions).count
            (.freeName p) ≤ 1 := by
  refine ⟨rfl, rfl, rfl, rfl, rfl, rfl, ?_⟩
  intro p
  simp only [WindowClass.moveCtor, WindowClass.destructorActions,
    WindowClass.unregisterActions]
  cases h : other.m_NativeClass.lpszClassName with
  | none => simp
  | some n =>
      simp [List.count_cons, List.count_singleton]
      split <;> simp_all [List.count_eq_zero]

/-- C8 counterexample: the `WindowClass` overload set has four
constructors, but the combination "procedure and instance handle given,
both optional parameters omitted" — signature `(WNDPROC, HINSTANCE)` —
is not among them (the fourth overload is the parameterless default
constructor instead). -/
theorem C8_counterexample :
    [ParamTy.wndproc, ParamTy.hinstance] ∉ windowClassCtorSignatures
    ∧ windowClassCtorSignatures.length = 4 := by
  decide

/-- C8 (amended): `WindowClass` declares exactly four constructors:
(procedure, instance, background, name); (procedure, instance, name);
(procedure, instance, background); and a parameterless default
constructor.  Three of the four combinations of the two optional
parameters are covered; the "(procedure, instance) with both optionals
omitted" combination is not. -/
theorem C8_overload_shapes :
    [ParamTy.wndproc, ParamTy.hinstance, ParamTy.hbrush, ParamTy.lpcwstr]
        ∈ windowClassCtorSignatures
    ∧ [ParamTy.wndproc, ParamTy.hinstance, ParamTy.lpcwstr]
        ∈ windowClassCtorSignatures
    ∧ [ParamTy.wndproc, ParamTy.hinstance, ParamTy.hbrush]
        ∈ windowClassCtorSignatures
    ∧ [] ∈ windowClassCtorSignatures
    ∧ [ParamTy.wndproc, ParamTy.hinstance] ∉ windowClassCtorSignatures
    ∧ windowClassCtorSignatures.length = 4 := by
  decide

/-- C2 counterexample: two failed creations that differ only in the
platform's diagnostic code (5 vs 6) make the extended constructor throw
the identical fixed message, so the extended constructor's error cannot
carry the diagnostic code. -/
theorem C2_counterexample :
    Window.ctorExtended [] [] 1 0 0 0 0 0 0 ⟨none, 5⟩ =
      Window.ctorExtended [] [] 1 0 0 0 0 0 0 ⟨none, 6⟩
    ∧ (5 : DWORD) ≠ 6
    ∧ Window.ctorExtended [] [] 1 0 0 0 0 0 0 ⟨none, 5⟩ =
        .thrown "Failed to create window." := by
  exact ⟨rfl, by decide, rfl⟩

/-- C2 (amended): when the platform returns `NULL`, the simple
constructor throws an error whose message carries the platform's
last-error code, while the extended constructor throws a fixed message
without the code; when the platform returns a handle, both constructors
store it and succeed. -/
theorem C2_ctor_outcomes (cn wn : WStr) (hInst : Ptr)
    (x y width height : Int) (style exStyle : DWORD) (plat : CreateAttempt) :
    (plat.result = none →
      Window.ctorSimple cn wn hInst plat =
        .thrown ("Failed to create window. Error code: " ++ toString plat.lastError)
      ∧ Window.ctorExtended cn wn hInst x y width height style exStyle plat =
        .thrown "Failed to create window.")
    ∧ ∀ h : HWND, plat.result = some h →
        Window.ctorSimple cn wn hInst plat = .ok ⟨h⟩
        ∧ Window.ctorExtended cn wn hInst x y width height style exStyle plat =
            .ok ⟨h⟩ := by
  constructor
  · intro hn
    simp [Window.ctorSimple, Window.ctorExtended, hn]
  · intro h hh
    simp [Window.ctorSimple, Window.ctorExtended, hh]

/-- Witness for C2: a concrete failed creation with code 7 and a
concrete successful creation with handle 42. -/
theorem C2_ctor_outcomes_witness :
    (Window.ctorSimple [] [] 1 ⟨none, 7⟩ =
        .thrown ("Failed to create window. Error code: " ++ toString (7 : DWORD))
      ∧ Window.ctorExtended [] [] 1 0 0 0 0 0 0 ⟨none, 7⟩ =
        .thrown "Failed to create window.")
    ∧ (Window.ctorSimple [] [] 1 ⟨some 42, 0⟩ = .ok ⟨42⟩
      ∧ Window.ctorExtended [] [] 1 0 0 0 0 0 0 ⟨some 42, 0⟩ = .ok ⟨42⟩) :=
  ⟨(C2_ctor_outcomes [] [] 1 0 0 0 0 0 0 ⟨none, 7⟩).1 rfl,
   (C2_ctor_outcomes [] [] 1 0 0 0 0 0 0 ⟨some 42, 0⟩).2 42 rfl⟩

/-- C5: for every 32-bit style value `s`, `SetStyle(s)` then `GetStyle()`
returns exactly `s`, and the `SetStyle(s)` call performs exactly one
`SWP_FRAMECHANGED`-flagged `SetWindowPos` request, issued after the
`SetWindowLong` write of the style bits (the trace is exactly the
two-step protocol). -/
theorem C5_style_roundtrip_one_framechange (w : Window) (s : DWORD)
    (st : PlatformState) (hs : s < 2 ^ 32) :
    w.getStyle (w.setStyle s st).1 = s
    ∧ ((w.setStyle s st).2.countP (fun c => c.isFrameChange)) = 1
    ∧ (w.setStyle s st).2 =
        [.setWindowLong w.m_NativeWindow GWL_STYLE s,
         .setWindowPos w.m_NativeWindow
           (SWP_NOMOVE ||| SWP_NOSIZE ||| SWP_NOZORDER ||| SWP_FRAMECHANGED)] := by
  refine ⟨?_, ?_, ?_⟩
  · simp only [Window.getStyle, Window.setStyle]
    exact Nat.mod_eq_of_lt hs
  · simp [Window.setStyle, List.countP_cons, PlatCall.isFrameChange,
      SWP_NOMOVE, SWP_NOSIZE, SWP_NOZORDER, SWP_FRAMECHANGED]
  · simp only [Window.setStyle, Nat.mod_eq_of_lt hs]

/-- Witness for C5 at handle 1, style 13, the default platform state. -/
theorem C5_style_roundtrip_one_framechange_witness :
    (Window.mk 1).getStyle ((Window.mk 1).setStyle 13 st0).1 = 13
    ∧ (((Window.mk 1).setStyle 13 st0).2.countP (fun c => c.isFrameChange)) = 1
    ∧ ((Window.mk 1).setStyle 13 st0).2 =
        [.setWindowLong 1 GWL_STYLE 13,
         .setWindowPos 1
           (SWP_NOMOVE ||| SWP_NOSIZE ||| SWP_NOZORDER ||| SWP_FRAMECHANGED)] :=
  C5_style_roundtrip_one_framechange ⟨1⟩ 13 st0 (by decide)

/-- C6: for every title string `t` (a C string, hence free of embedded
nulls), `SetTitle(t)` then `GetTitle()` returns `t` when `t` fits the
fixed 256-unit read buffer (at most 255 code units plus terminator), and
returns `t` silently truncated to the buffer capacity otherwise. -/
theorem C6_title_roundtrip_truncation (w : Window) (t : WStr)
    (st : PlatformState) (hz : 0 ∉ t) :
    (t.length ≤ 255 → w.getTitle (w.setTitle t st) = t)
    ∧ (255 < t.length → w.getTitle (w.setTitle t st) = t.take 255) := by
  have hself : cstrRead t = t := by
    apply List.takeWhile_eq_self_iff.mpr
    intro a ha
    simp only [ne_eq, decide_eq_true_eq]
    exact fun h => hz (h ▸ ha)
  have htake : cstrRead (t.take 255) = t.take 255 := by
    apply List.takeWhile_eq_self_iff.mpr
    intro a ha
    simp only [ne_eq, decide_eq_true_eq]
    exact fun h => hz (h ▸ List.mem_of_mem_take ha)
  constructor
  · intro hlen
    simp [Window.getTitle, Window.setTitle, hself, htake,
      List.take_of_length_le hlen]
  · intro _
    simp [Window.getTitle, Window.setTitle, hself, htake]

/-- Witness for C6: a two-unit title round-trips unchanged, and a
300-unit title comes back truncated to 255 units. -/
theorem C6_title_roundtrip_truncation_witness :
    (Window.mk 1).getTitle ((Window.mk 1).setTitle [72, 105] st0) = [72, 105]
    ∧ (Window.mk 1).getTitle
        ((Window.mk 1).setTitle (List.replicate 300 65) st0) =
          (List.replicate 300 65).take 255 :=
  ⟨(C6_title_roundtrip_truncation ⟨1⟩ [72, 105] st0 (by decide)).1 (by decide),
   (C6_title_roundtrip_truncation ⟨1⟩ (List.replicate 300 65) st0
      (fun h => absurd (List.eq_of_mem_replicate h) (by decide))).2
     (by rw [List.length_replicate]; omega)⟩

/-- C3 counterexample: with `[66]` on the clipboard, a `CopyToClipboard`
whose shared-memory allocation fails after the clipboard is opened is
not a no-op on the clipboard contents: `EmptyClipboard()` has already
run, so the prior contents are gone. -/
theorem C3_counterexample :
    ((Window.mk 1).copyToClipboard [65] true false false
        { st0 with clip := { isOpen := false, content := some [66] } }).1.clip.content
      = none
    ∧ (some [66] : Option WStr) ≠ none := by
  exact ⟨rfl, by decide⟩

/-- C3 (amended): when an internal step of `CopyToClipboard` fails after
the clipboard is opened, no data is installed but the clipboard has
already been emptied, so the operation leaves the clipboard empty (not
unchanged), silently; and on every execution path of `CopyToClipboard`
and `PasteFromClipboard` in which the clipboard was opened, the last
clipboard call is `CloseClipboard` and the clipboard ends closed. -/
theorem C3_failure_empties_and_always_closes (w : Window) (text : WStr)
    (openOk allocOk lockOk popenOk plockOk : Bool) (st st2 : PlatformState) :
    ((allocOk = false ∨ lockOk = false) → openOk = true →
      (w.copyToClipboard text openOk allocOk lockOk st).1.clip.content = none)
    ∧ (.openClipboard ∈ (w.copyToClipboard text openOk allocOk lockOk st).2 →
        (w.copyToClipboard text openOk allocOk lockOk st).2.getLast?
          = some .closeClipboard
        ∧ (w.copyToClipboard text openOk allocOk lockOk st).1.clip.isOpen = false)
    ∧ (.openClipboard ∈ (w.pasteFromClipboard popenOk plockOk st2).2.2 →
        (w.pasteFromClipboard popenOk plockOk st2).2.2.getLast?
          = some .closeClipboard
        ∧ (w.pasteFromClipboard popenOk plockOk st2).2.1.clip.isOpen = false) := by
  refine ⟨?_, ?_, ?_⟩
  · intro hf ho
    subst ho
    rcases hf with hf | hf
    · subst hf
      cases lockOk <;> simp [Window.copyToClipboard]
    · subst hf
      cases allocOk <;> simp [Window.copyToClipboard]
  · cases openOk <;> cases allocOk <;> cases lockOk <;>
      simp [Window.copyToClipboard]
  · cases popenOk <;> cases hc : st2.clip.content <;> cases plockOk <;>
      simp [Window.pasteFromClipboard, hc]

/-- Witness for C3: a concrete failed copy (alloc refused) leaves the
clipboard empty, and concrete copy/paste runs end with `CloseClipboard`
and a closed clipboard. -/
theorem C3_failure_empties_and_always_closes_witness :
    ((Window.mk 1).copyToClipboard [65] true false true st0).1.clip.content = none
    ∧ (((Window.mk 1).copyToClipboard [65] true false true st0).2.getLast?
          = some .closeClipboard
        ∧ ((Window.mk 1).copyToClipboard [65] true false true st0).1.clip.isOpen
          = false)
    ∧ (((Window.mk 1).pasteFromClipboard true true st0).2.2.getLast?
          = some .closeClipboard
        ∧ ((Window.mk 1).pasteFromClipboard true true st0).2.1.clip.isOpen
          = false) :=
  ⟨(C3_failure_empties_and_always_closes ⟨1⟩ [65] true false true true true
      st0 st0).1 (Or.inl rfl) rfl,
   (C3_failure_empties_and_always_closes ⟨1⟩ [65] true false true true true
      st0 st0).2.1 (by decide),
   (C3_failure_empties_and_always_closes ⟨1⟩ [65] true false true true true
      st0 st0).2.2 (by decide)⟩

/-- C4 counterexample: for the wide string `[65, 0, 66]` (which contains
an embedded null) with every platform step succeeding, copy-then-paste
returns `[65]`, not the original string. -/
theorem C4_counterexample :
    ((Window.mk 1).pasteFromClipboard true true
        ((Window.mk 1).copyToClipboard [65, 0, 66] true true true st0).1).1
      = [65]
    ∧ [65] ≠ ([65, 0, 66] : WStr) := by
  exact ⟨rfl, by decide⟩

/-- C4 (amended): for every wide string `text` free of embedded null
characters (including the empty string), when all platform clipboard
steps succeed, `CopyToClipboard(text)` followed by
`PasteFromClipboard()` returns a string equal to `text`. -/
theorem C4_copy_paste_roundtrip (w : Window) (text : WStr)
    (st : PlatformState) (hz : 0 ∉ text) :
    (w.pasteFromClipboard true true
        (w.copyToClipboard text true true true st).1).1 = text := by
  have hself : cstrRead text = text := by
    apply List.takeWhile_eq_self_iff.mpr
    intro a ha
    simp only [ne_eq, decide_eq_true_eq]
    exact fun h => hz (h ▸ ha)
  simp [Window.copyToClipboard, Window.pasteFromClipboard, hself]

/-- Witness for C4 on the two-unit text `[72, 105]` (and the handle 1
window over the default state). -/
theorem C4_copy_paste_roundtrip_witness :
    ((Window.mk 1).pasteFromClipboard true true
        ((Window.mk 1).copyToClipboard [72, 105] true true true st0).1).1
      = [72, 105] :=
  C4_copy_paste_roundtrip ⟨1⟩ [72, 105] st0 (by decide)

/-- C10: for every wide string `text` containing an embedded null and
every platform state, with all clipboard steps succeeding,
`CopyToClipboard(text)` installs only the prefix of `text` before its
first `0`, and the subsequent `PasteFromClipboard()` returns exactly
that prefix — which is not the full string. -/
theorem C10_embedded_null_truncates (w : Window) (text : WStr)
    (st : PlatformState) (hz : 0 ∈ text) :
    (w.copyToClipboard text true true true st).1.clip.content
      = some (text.takeWhile (fun c => c ≠ 0))
    ∧ (w.pasteFromClipboard true true
        (w.copyToClipboard text true true true st).1).1
      = text.takeWhile (fun c => c ≠ 0)
    ∧ (w.pasteFromClipboard true true
        (w.copyToClipboard text true true true st).1).1 ≠ text := by
  refine ⟨by simp [Window.copyToClipboard, cstrRead], ?_, ?_⟩
  · simp [Window.copyToClipboard, Window.pasteFromClipboard, cstrRead]
  · simp only [Window.copyToClipboard, Window.pasteFromClipboard, cstrRead]
    intro heq
    simp only [if_pos] at heq
    have : ∀ a ∈ text, (fun c => decide (c ≠ 0)) a = true :=
      List.takeWhile_eq_self_iff.mp (by simpa using heq)
    have h0 := this 0 hz
    simp at h0

/-- Witness for C10 on `[65, 0, 66]`: the clipboard receives `[65]`,
paste returns `[65]`, and `[65]` differs from the original. -/
theorem C10_embedded_null_truncates_witness :
    ((Window.mk 1).copyToClipboard [65, 0, 66] true true true st0).1.clip.content
      = some ([65, 0, 66].takeWhile (fun c => c ≠ 0))
    ∧ ((Window.mk 1).pasteFromClipboard true true
        ((Window.mk 1).copyToClipboard [65, 0, 66] true true true st0).1).1
      = [65, 0, 66].takeWhile (fun c => c ≠ 0)
    ∧ ((Window.mk 1).pasteFromClipboard true true
        ((Window.mk 1).copyToClipboard [65, 0, 66] true true true st0).1).1
      ≠ [65, 0, 66] :=
  C10_embedded_null_truncates ⟨1⟩ [65, 0, 66] st0 (by decide)

/-- No `Window` method assigns `m_NativeWindow`: one method invocation
returns the object unchanged. -/
theorem Window.applyOp_fst (w : Window) (op : WinOp) (st : PlatformState) :
    (w.applyOp op st).1 = w := by
  cases op <;> try rfl
  case setLayered layered => cases layered <;> rfl

/-- Any sequence of `Window` method invocations returns the object
unchanged. -/
theorem Window.runOps_fst (ops : List WinOp) (w : Window)
    (st : PlatformState) : (w.runOps ops st).1 = w := by
  induction ops generalizing w st with
  | nil => rfl
  | cons op rest ih => rw [Window.runOps, ih, Window.applyOp_fst]

/-- C9: a `Window` successfully constructed from a (class name,
instance handle) pair keeps its stored native handle unchanged across
every sequence of operations of the class, and `GetHandle` returns
exactly that handle at every such point. -/
theorem C9_handle_stable (cn wn : WStr) (hInst : Ptr) (plat : CreateAttempt)
    (w : Window) (_hctor : Window.ctorSimple cn wn hInst plat = .ok w)
    (ops : List WinOp) (st : PlatformState) :
    (w.runOps ops st).1 = w
    ∧ (w.runOps ops st).1.getHandle = w.getHandle := by
  refine ⟨Window.runOps_fst ops w st, ?_⟩
  rw [Window.runOps_fst ops w st]

/-- Witness for C9: the window of handle 42 (constructed from a
successful creation) keeps handle 42 across a title, style, clipboard
and visibility sequence. -/
theorem C9_handle_stable_witness :
    ((Window.mk 42).runOps
        [.setTitle [72], .setStyle 5,
         .copyToClipboard [72] true true true, .hide] st0).1 = ⟨42⟩
    ∧ ((Window.mk 42).runOps
        [.setTitle [72], .setStyle 5,
         .copyToClipboard [72] true true true, .hide] st0).1.getHandle
      = (Window.mk 42).getHandle :=
  C9_handle_stable [] [] 1 ⟨some 42, 0⟩ ⟨42⟩ rfl
    [.setTitle [72], .setStyle 5,
     .copyToClipboard [72] true true true, .hide] st0

/-- C7 counterexample: the distinct (procedure, instance, background)
triples `(1, 2, 3)` and `(2, 1, 3)` synthesize the identical class name
— a systematic collision, because the XOR combination of the component
hashes is symmetric under swapping procedure and instance. -/
theorem C7_counterexample :
    synthClassName 1 2 3 = synthClassName 2 1 3
    ∧ ((1, 2, 3) : Ptr × Ptr × Ptr) ≠ (2, 1, 3) := by
  constructor
  · unfold synthClassName synthClassNameWith
    rw [Nat.xor_comm (stdHashPtr 1) (stdHashPtr 2)]
  · decide

/-- C7 (amended): the synthesized class name is a deterministic function
of the (procedure, instance, background) triple — equal triples yield
equal names — but collisions between distinct triples are systematic,
not merely rare: the XOR combination makes any transposition of the
three components yield the identical name, whatever per-component hash
the standard library uses. -/
theorem C7_deterministic_but_systematic_collisions (h : Nat → Nat)
    (p p' i i' b b' : Ptr) :
    (p = p' → i = i' → b = b' →
      synthClassNameWith h p i b = synthClassNameWith h p' i' b')
    ∧ synthClassNameWith h p i b = synthClassNameWith h i p b
    ∧ synthClassNameWith h p i b = synthClassNameWith h p b i := by
  refine ⟨?_, ?_, ?_⟩
  · rintro rfl rfl rfl
    rfl
  · unfold synthClassNameWith
    rw [Nat.xor_comm (h p) (h i)]
  · unfold synthClassNameWith
    rw [Nat.xor_assoc, Nat.xor_comm (h i) (h b), ← Nat.xor_assoc]

/-- Witness for C7: with the platform hash, the triple `(1, 2, 3)`
deterministically reproduces its own name and collides with the
transposed triple `(2, 1, 3)`. -/
theorem C7_deterministic_but_systematic_collisions_witness :
    synthClassNameWith stdHashPtr 1 2 3 = synthClassNameWith stdHashPtr 1 2 3
    ∧ synthClassNameWith stdHashPtr 1 2 3
        = synthClassNameWith stdHashPtr 2 1 3 :=
  ⟨(C7_deterministic_but_systematic_collisions stdHashPtr 1 1 2 2 3 3).1
      rfl rfl rfl,
   (C7_deterministic_but_systematic_collisions stdHashPtr 1 1 2 2 3 3).2.1⟩

end WinCpp
